import Mathlib

/-!
Verification of the offline-caching and update-lifecycle layer of the
`irshados-frontend` application.

The embedding follows three source files:

* `public/service-worker.js` — the Workbox-configured service worker:
  route registrations, cacheable-response allow-lists, expiration caps,
  the background-sync queue for offline POSTs, the catch handler, and the
  top-level `SKIP_WAITING` message listener.
* `src/App.tsx` — the foreground update-lifecycle controller
  (`registerUpdateListeners`, `handleMessage`, `handleControllerChange`,
  `updatePWA`, `handleInstallChoice`).
* the `InstallPWA` component — `handleInstall` around the deferred
  install prompt.

The Workbox library itself (strategy and plugin semantics) is loaded from a
CDN and is not part of the repository; where its behaviour decides a claim,
the corresponding definition is modelled from the specification and marked
`Modelled from the spec:` in its doc comment.  Every configuration value
(cache names, status allow-lists, entry caps, ages, retention time) is
transcribed from `service-worker.js`.
-/

namespace ServiceWorker

/-- Configuration of one registered runtime-caching route, transcribed from
`routing.registerRoute` calls in `service-worker.js`. -/
structure RouteConfig where
  cacheName : String
  cacheableStatuses : List Nat
  maxEntries : Option Nat
  maxAgeSeconds : Option Nat
  purgeOnQuotaError : Bool
  networkTimeoutSeconds : Option Nat
  deriving Repr, DecidableEq

/-- Navigation route: `NetworkFirst`, cache `irshados-pages`,
`networkTimeoutSeconds: 5`, statuses `[0, 200]`, `maxEntries: 20`,
`purgeOnQuotaError: true`, no age cap (`service-worker.js` lines 33-43). -/
def pagesRoute : RouteConfig :=
  { cacheName := "irshados-pages"
    cacheableStatuses := [0, 200]
    maxEntries := some 20
    maxAgeSeconds := none
    purgeOnQuotaError := true
    networkTimeoutSeconds := some 5 }

/-- Static-asset route: `StaleWhileRevalidate`, cache `irshados-static-v1`,
statuses `[0, 200]`, `maxEntries: 60`, `maxAgeSeconds: 30*24*60*60`. -/
def staticRoute : RouteConfig :=
  { cacheName := "irshados-static-v1"
    cacheableStatuses := [0, 200]
    maxEntries := some 60
    maxAgeSeconds := some (30 * 24 * 60 * 60)
    purgeOnQuotaError := false
    networkTimeoutSeconds := none }

/-- Image/font route: `CacheFirst`, cache `irshados-media`, statuses
`[0, 200]`, `maxEntries: 120`, `maxAgeSeconds: 60*24*60*60`,
`purgeOnQuotaError: true`. -/
def mediaRoute : RouteConfig :=
  { cacheName := "irshados-media"
    cacheableStatuses := [0, 200]
    maxEntries := some 120
    maxAgeSeconds := some (60 * 24 * 60 * 60)
    purgeOnQuotaError := true
    networkTimeoutSeconds := none }

/-- Same-origin API GET route: `StaleWhileRevalidate`, cache
`irshados-api-v1`, statuses `[0, 200]`, `maxEntries: 50`,
`maxAgeSeconds: 5*60`. -/
def apiRoute : RouteConfig :=
  { cacheName := "irshados-api-v1"
    cacheableStatuses := [0, 200]
    maxEntries := some 50
    maxAgeSeconds := some (5 * 60)
    purgeOnQuotaError := false
    networkTimeoutSeconds := none }

/-- All four runtime-caching routes registered in `service-worker.js`,
covering the pages, static, media and api namespaces. -/
def cachingRoutes : List RouteConfig := [pagesRoute, staticRoute, mediaRoute, apiRoute]

/-- Modelled from the spec: the cacheable-response plugin
(`CacheableResponsePlugin`, not in the repository) lets a strategy write a
fetched response into its cache namespace exactly when the response status
is on the configured allow-list. -/
def responsePersisted (r : RouteConfig) (status : Nat) : Bool :=
  r.cacheableStatuses.contains status

end ServiceWorker

namespace ServiceWorker

/-- The request fields the catch handler in `service-worker.js` inspects:
`event.request.destination` and the `accept` header. -/
structure CatchRequest where
  destination : String
  acceptHeader : Option String
  deriving Repr, DecidableEq

/-- A response synthesized by a strategy or by the catch handler. -/
inductive FallbackResponse where
  /-- the precached copy of `/offline.html` -/
  | cachedOfflinePage : FallbackResponse
  /-- `Response.error()` — a network error result with no body -/
  | networkError : FallbackResponse
  /-- `new Response(body, { status, headers })` -/
  | synthesized (status : Nat) (contentType : String) (body : String) : FallbackResponse
  deriving Repr, DecidableEq

/-- The JSON body built by `JSON.stringify` in the catch handler. -/
def offlineJsonBody : String :=
  "\x7b\"error\":\"offline\",\"message\":\"This content is unavailable while you are offline.\"\x7d"

/-- `true` when `needle` occurs as a contiguous run of `hay`. -/
def substringOccurs (needle : List Char) : List Char → Bool
  | [] => List.isPrefixOf needle []
  | c :: cs => List.isPrefixOf needle (c :: cs) || substringOccurs needle cs

/-- `String.includes` on the `accept` header: `true` when the header is
present and the needle occurs in it as a substring. -/
def headerIncludes (header : Option String) (needle : String) : Bool :=
  match header with
  | some h => substringOccurs needle.toList h.toList
  | none => false

/-- The catch handler installed by `routing.setCatchHandler`
(`service-worker.js` lines 91-111): a `document` request gets the precached
offline page when present, else a network error; otherwise a request whose
`accept` header includes `application/json` gets a synthesized 503 JSON
response; every other request gets a network error. `offlinePageCached`
says whether `caches.match("/offline.html")` finds an entry. -/
def catchHandler (offlinePageCached : Bool) (req : CatchRequest) : FallbackResponse :=
  if req.destination = "document" then
    if offlinePageCached then .cachedOfflinePage else .networkError
  else if headerIncludes req.acceptHeader "application/json" then
    .synthesized 503 "application/json" offlineJsonBody
  else
    .networkError

end ServiceWorker

namespace ServiceWorker

/-- `maxRetentionTime: 24 * 60` (minutes) passed to the background-sync
plugin in `service-worker.js` line 80: twenty-four hours. -/
def bgSyncMaxRetentionMinutes : Nat := 24 * 60

/-- One entry of the offline mutation queue: a snapshot of the failed POST
and the minute at which it was enqueued. -/
structure QueueEntry where
  url : String
  enqueuedAtMin : Nat
  deriving Repr, DecidableEq

/-- An entry has exceeded the retention window at minute `now` when it was
enqueued more than `bgSyncMaxRetentionMinutes` before `now`. -/
def entryExpired (now : Nat) (e : QueueEntry) : Bool :=
  e.enqueuedAtMin + bgSyncMaxRetentionMinutes < now

/-- The request fields the POST route predicate in `service-worker.js`
inspects: `url.origin === self.location.origin && request.method === "POST"`. -/
structure PostRequest where
  url : String
  sameOrigin : Bool
  method : String
  deriving Repr, DecidableEq

/-- The route predicate of the `NetworkOnly` POST route
(`service-worker.js` lines 83-89). -/
def postRouteMatches (req : PostRequest) : Bool :=
  req.sameOrigin && req.method == "POST"

/-- Outcome of one network attempt: an HTTP response (any status, errors
included) or a network-layer failure (the fetch threw). -/
inductive FetchResult where
  | reply (status : Nat) : FetchResult
  | networkFailure : FetchResult
  deriving Repr, DecidableEq

/-- Modelled from the spec: the background-sync plugin
(`BackgroundSyncPlugin`, not in the repository) enqueues the failed request
when, and only when, a request matched by the `NetworkOnly` POST route
fails at the network layer; an HTTP error response is returned to the
caller and never enqueued.  Returns the response passed through (if any)
and the queue after the attempt. -/
def networkOnlyPost (req : PostRequest) (res : FetchResult) (now : Nat)
    (q : List QueueEntry) : Option Nat × List QueueEntry :=
  match res with
  | .reply s => (some s, q)
  | .networkFailure =>
      if postRouteMatches req then (none, q ++ [⟨req.url, now⟩]) else (none, q)

/-- Modelled from the spec: queue replay (the background-sync `Queue`, not
in the repository) walks the queue in FIFO order; an entry past the
retention window is dropped without replay and without notification; a
fresh entry is fetched — on success it is removed, on failure it is put
back and replay stops, leaving it and every later entry queued.  `net e`
says whether replaying `e` succeeds.  Returns the list of entries actually
replayed (in order) and the remaining queue. -/
def replayQueue (now : Nat) (net : QueueEntry → Bool) :
    List QueueEntry → List QueueEntry × List QueueEntry
  | [] => ([], [])
  | e :: rest =>
      if entryExpired now e then
        replayQueue now net rest
      else if net e then
        (e :: (replayQueue now net rest).1, (replayQueue now net rest).2)
      else
        ([], e :: rest)

end ServiceWorker

namespace ServiceWorker

/-- A cache namespace as a list of `(url, body)` pairs, newest first. -/
abbrev CacheStore := List (String × String)

/-- Look up a URL in a cache namespace. -/
def cacheLookup (url : String) (c : CacheStore) : Option String :=
  match c.find? (fun e => e.1 == url) with
  | some e => some e.2
  | none => none

/-- Modelled from the spec: the expiration plugin keeps a namespace at its
entry cap — a write removes any older entry for the same URL, inserts the
fresh one as most recent, and evicts least-recently-inserted entries beyond
the cap. -/
def putWithCap (cap : Nat) (url body : String) (c : CacheStore) : CacheStore :=
  ((url, body) :: List.filter (fun e => e.1 ≠ url) c).take cap

/-- Outcome of the network attempt made by the navigation strategy within
its 5-second budget: either a response arrived in time, or the attempt
failed / timed out. -/
inductive NavNetwork where
  | reply (status : Nat) (body : String) : NavNetwork
  | downOrTimeout : NavNetwork
  deriving Repr, DecidableEq

/-- What the navigation route hands back for a request. -/
inductive NavResponse where
  /-- the live network response was returned -/
  | fromNetwork (status : Nat) (body : String) : NavResponse
  /-- the entry previously stored in the pages namespace was returned -/
  | fromCache (body : String) : NavResponse
  /-- the strategy gave up; the request falls to the catch handler -/
  | toFallback : NavResponse
  deriving Repr, DecidableEq

/-- Modelled from the spec: the Network-First strategy (not in the
repository; glossary: "attempting network before cache, falling back to
cache on failure/timeout") for the navigation route.  A response inside the
timeout is returned live and, when its status passes the cacheable-response
allow-list, written into the pages namespace under its entry cap; on
failure or timeout the strategy serves the pages-cache entry for the URL if
one exists and otherwise defers to the catch handler.  Returns the response
and the pages namespace afterwards. -/
def networkFirstNavigate (url : String) (net : NavNetwork) (pages : CacheStore) :
    NavResponse × CacheStore :=
  match net with
  | .reply s b =>
      (.fromNetwork s b,
        if responsePersisted pagesRoute s then putWithCap 20 url b pages else pages)
  | .downOrTimeout =>
      match cacheLookup url pages with
      | some b => (.fromCache b, pages)
      | none => (.toFallback, pages)

end ServiceWorker

namespace ServiceWorker

/-- What the `if (self.workbox)` block of `service-worker.js` registers,
plus the top-level message listener. -/
structure SWSetup where
  precacheRegistered : Bool
  routes : List RouteConfig
  offlineQueueRegistered : Bool
  messageListenerRegistered : Bool
  deriving Repr, DecidableEq

/-- Worker setup as a function of whether the Workbox import succeeded
(`self.workbox` is truthy): precache, the caching routes and the offline
queue are registered only inside the capability check, while the
`message` listener is added at top level, outside the check
(`service-worker.js` lines 10-11 and 114-122). -/
def setupServiceWorker (workboxAvailable : Bool) : SWSetup :=
  { precacheRegistered := workboxAvailable
    routes := if workboxAvailable then cachingRoutes else []
    offlineQueueRegistered := workboxAvailable
    messageListenerRegistered := true }

/-- A message received by the worker's `message` listener. -/
inductive SWMessage where
  | skipWaitingMsg : SWMessage
  | otherMsg : SWMessage
  deriving Repr, DecidableEq

/-- Whether a delivered message makes the worker call `self.skipWaiting()`:
the listener must be registered and the message must carry
`type: "SKIP_WAITING"`. -/
def messageTriggersSkipWaiting (setup : SWSetup) (m : SWMessage) : Bool :=
  setup.messageListenerRegistered && (m == SWMessage.skipWaitingMsg)

end ServiceWorker

namespace Foreground

/-- The foreground update-lifecycle state of `App.tsx`: the
`updateAvailable` React state, whether `waitingWorkerRef.current` holds a
worker, the `refreshing` guard of `handleControllerChange`, and two
counters observing effects (reloads performed, `SKIP_WAITING` messages
posted). -/
structure FgState where
  updateAvailable : Bool
  waitingWorker : Bool
  refreshing : Bool
  reloadCount : Nat
  skipWaitingSent : Nat
  deriving Repr, DecidableEq

/-- State at effect setup: no update flagged, no waiting worker recorded,
`refreshing = false`, no effects performed yet. -/
def initialFgState : FgState :=
  { updateAvailable := false, waitingWorker := false, refreshing := false
    reloadCount := 0, skipWaitingSent := 0 }

/-- Events delivered to the foreground controller. -/
inductive FgEvent where
  /-- `navigator.serviceWorker.ready` resolved; `present` says whether
  `registration.waiting` is non-null at startup -/
  | startupWaiting (present : Bool) : FgEvent
  /-- a new worker's `statechange` fired with state `installed`;
  `hasController` says whether `navigator.serviceWorker.controller` is set -/
  | workerInstalled (hasController : Bool) : FgEvent
  /-- a `{ type: "NEW_VERSION" }` message arrived (`handleMessage`) -/
  | newVersionMessage : FgEvent
  /-- the user clicked the update button (`updatePWA`) -/
  | userConfirm : FgEvent
  /-- a `controllerchange` notification (`handleControllerChange`) -/
  | controllerChange : FgEvent
  deriving Repr, DecidableEq

/-- One step of the foreground controller, transcribed from `App.tsx`:

* `registerUpdateListeners`: a waiting worker at startup records it and
  sets `updateAvailable`; a `statechange` to `installed` does the same only
  when a controller already exists (an update, not a first install).
* `handleMessage`: a `NEW_VERSION` message sets `updateAvailable` only.
* `updatePWA`: posts `SKIP_WAITING` to `waitingWorkerRef.current` when it
  is non-null (optional chaining) and clears `updateAvailable`.
* `handleControllerChange`: reloads once; the `refreshing` flag makes any
  later delivery a no-op. -/
def fgStep (s : FgState) : FgEvent → FgState
  | .startupWaiting present =>
      if present then { s with waitingWorker := true, updateAvailable := true } else s
  | .workerInstalled hasController =>
      if hasController then { s with waitingWorker := true, updateAvailable := true } else s
  | .newVersionMessage => { s with updateAvailable := true }
  | .userConfirm =>
      if s.waitingWorker then
        { s with skipWaitingSent := s.skipWaitingSent + 1, updateAvailable := false }
      else
        { s with updateAvailable := false }
  | .controllerChange =>
      if s.refreshing then s
      else { s with refreshing := true, waitingWorker := false
                    reloadCount := s.reloadCount + 1 }

/-- Run a list of events through the controller. -/
def fgRun (s : FgState) (evs : List FgEvent) : FgState :=
  evs.foldl fgStep s

end Foreground

namespace Foreground

/-- The user's choice, as resolved by the platform's install prompt. -/
inductive InstallOutcome where
  | accepted : InstallOutcome
  | dismissed : InstallOutcome
  deriving Repr, DecidableEq

/-- How the `deferredPrompt.prompt()` / `userChoice` pair behaves on this
invocation: it resolves with a choice, or prompting throws. -/
inductive PromptBehavior where
  | resolves (choice : InstallOutcome) : PromptBehavior
  | throws : PromptBehavior
  deriving Repr, DecidableEq

/-- The outcome `InstallPWA.handleInstall` reports through
`onInstallChoice`: the resolved choice, or `"dismissed"` when prompting
threw (the `catch` branch). -/
def handleInstall (b : PromptBehavior) : InstallOutcome :=
  match b with
  | .resolves c => c
  | .throws => .dismissed

/-- The install-prompt slice of the foreground state: whether
`deferredPromptRef.current` still holds the eligibility event and whether
the prompt UI is shown. -/
structure InstallState where
  deferredPrompt : Bool
  showInstallPrompt : Bool
  deriving Repr, DecidableEq

/-- `App.handleInstallChoice`: whatever the outcome, the stored event is
discarded and the prompt UI hidden. -/
def handleInstallChoice (_s : InstallState) (_outcome : InstallOutcome) : InstallState :=
  { deferredPrompt := false, showInstallPrompt := false }

/-- One full prompt invocation: `handleInstall` resolves the outcome and
reports it to `handleInstallChoice`.  Returns the reported outcome and the
state afterwards. -/
def installFlow (s : InstallState) (b : PromptBehavior) : InstallOutcome × InstallState :=
  let o := handleInstall b
  (o, handleInstallChoice s o)

end Foreground

namespace ServiceWorker

/-- C1: for every cache namespace (pages, static, media, api), a fetched
response is written into the cache only if its status is 0 (opaque) or
200; a response with any other status is never persisted into any
namespace by any strategy. -/
theorem only_allow_listed_statuses_persisted :
    ∀ r ∈ cachingRoutes, ∀ s : Nat, responsePersisted r s = true → s = 0 ∨ s = 200 := by
  intro r hr s h
  simp only [cachingRoutes, List.mem_cons, List.not_mem_nil, or_false] at hr
  rcases hr with rfl | rfl | rfl | rfl <;>
    simpa [responsePersisted, pagesRoute, staticRoute, mediaRoute, apiRoute]
      using h

/-- Witness: the pages route persists a status-200 response, and 200 is on
the allow-list. -/
theorem only_allow_listed_statuses_persisted_witness :
    responsePersisted pagesRoute 200 = true ∧ (200 = 0 ∨ 200 = 200) :=
  ⟨by decide,
    only_allow_listed_statuses_persisted pagesRoute (by simp [cachingRoutes]) 200 (by decide)⟩

/-- C5: when routing and caching both fail, the catch handler returns the
precached offline page (else a network error) for a document request; a
synthesized 503 JSON offline response for a non-document request whose
accept header includes `application/json`; and a network error with no
fabricated body for every other request. -/
theorem catch_handler_offline_responses :
    ∀ (cached : Bool) (req : CatchRequest),
      (req.destination = "document" →
        catchHandler cached req =
          if cached then FallbackResponse.cachedOfflinePage else FallbackResponse.networkError)
      ∧ (req.destination ≠ "document" →
          headerIncludes req.acceptHeader "application/json" = true →
        catchHandler cached req = .synthesized 503 "application/json" offlineJsonBody)
      ∧ (req.destination ≠ "document" →
          headerIncludes req.acceptHeader "application/json" = false →
        catchHandler cached req = .networkError) := by
  intro cached req
  refine ⟨fun h => by simp [catchHandler, h],
    fun h hj => by simp [catchHandler, h, hj],
    fun h hj => by simp [catchHandler, h, hj]⟩

/-- Witness: a non-document request accepting JSON gets the synthesized
503 offline body. -/
theorem catch_handler_offline_responses_witness :
    catchHandler false ⟨"image", some "application/json"⟩ =
      .synthesized 503 "application/json" offlineJsonBody :=
  (catch_handler_offline_responses false ⟨"image", some "application/json"⟩).2.1
    (by decide) (by decide)

/-- C10: the worker's `message` listener is registered unconditionally,
outside the `if (self.workbox)` capability check; when the toolkit fails to
load, no precache, routes or offline queue are registered, yet a
`SKIP_WAITING` message still triggers `skipWaiting`. -/
theorem skip_waiting_outside_capability_check :
    ∀ wb : Bool,
      (setupServiceWorker wb).messageListenerRegistered = true
      ∧ (setupServiceWorker false).routes = []
      ∧ (setupServiceWorker false).precacheRegistered = false
      ∧ (setupServiceWorker false).offlineQueueRegistered = false
      ∧ messageTriggersSkipWaiting (setupServiceWorker false) .skipWaitingMsg = true := by
  intro wb
  cases wb <;> exact ⟨rfl, rfl, rfl, rfl, rfl⟩

end ServiceWorker

namespace ServiceWorker

/-- Replay emits entries in their queue order: the replayed list is a
sublist of the queue. -/
theorem replay_sublist (now : Nat) (net : QueueEntry → Bool) :
    ∀ q : List QueueEntry, (replayQueue now net q).1.Sublist q := by
  intro q
  induction q with
  | nil => simp [replayQueue]
  | cons x rest ih =>
      by_cases hx : entryExpired now x
      · simpa [replayQueue, hx] using ih.cons x
      · by_cases hn : net x
        · simpa [replayQueue, hx, hn] using ih.cons₂ x
        · simp [replayQueue, hx, hn]

/-- Replay never emits an entry past the retention window. -/
theorem replay_skips_expired (now : Nat) (net : QueueEntry → Bool) :
    ∀ (q : List QueueEntry) (e : QueueEntry),
      entryExpired now e = true → e ∉ (replayQueue now net q).1 := by
  intro q
  induction q with
  | nil => simp [replayQueue]
  | cons x rest ih =>
      intro e he
      by_cases hx : entryExpired now x
      · simpa [replayQueue, hx] using ih e he
      · by_cases hn : net x
        · simp [replayQueue, hx, hn, not_or]
          exact ⟨fun h => hx (h ▸ he), ih e he⟩
        · simp [replayQueue, hx, hn]

/-- A fresh entry leaves the queue during replay only because its own
replay succeeded (and it was indeed replayed). -/
theorem replay_removed_only_on_success (now : Nat) (net : QueueEntry → Bool) :
    ∀ (q : List QueueEntry) (e : QueueEntry),
      e ∈ q → entryExpired now e = false → e ∉ (replayQueue now net q).2 →
      e ∈ (replayQueue now net q).1 ∧ net e = true := by
  intro q
  induction q with
  | nil => simp
  | cons x rest ih =>
      intro e hmem hfresh hrem
      by_cases hx : entryExpired now x
      · rcases List.mem_cons.mp hmem with rfl | hrest
        · exact absurd hx (by simp [hfresh])
        · have := ih e hrest hfresh (by simpa [replayQueue, hx] using hrem)
          simpa [replayQueue, hx] using this
      · by_cases hn : net x
        · rcases List.mem_cons.mp hmem with rfl | hrest
          · simp [replayQueue, hx, hn]
          · have hrem' : e ∉ (replayQueue now net rest).2 := by
              simpa [replayQueue, hx, hn] using hrem
            have := ih e hrest hfresh hrem'
            simp [replayQueue, hx, hn, this.1, this.2]
        · exact absurd hmem (by simpa [replayQueue, hx, hn] using hrem)

/-- C2: an offline-queue entry enqueued more than 24 hours (the configured
`maxRetentionTime` of 24·60 minutes) before a replay opportunity is never
replayed. -/
theorem expired_entry_never_replayed :
    ∀ (now : Nat) (net : QueueEntry → Bool) (q : List QueueEntry) (e : QueueEntry),
      e ∈ q → entryExpired now e = true → e ∉ (replayQueue now net q).1 := by
  intro now net q e _ he
  exact replay_skips_expired now net q e he

/-- Witness: an entry enqueued at minute 0 is past retention at minute
1441 and is absent from that replay's output. -/
theorem expired_entry_never_replayed_witness :
    (⟨"/api/orders", 0⟩ : QueueEntry) ∈ [(⟨"/api/orders", 0⟩ : QueueEntry)]
    ∧ entryExpired 1441 ⟨"/api/orders", 0⟩ = true
    ∧ (⟨"/api/orders", 0⟩ : QueueEntry) ∉
        (replayQueue 1441 (fun _ => true) [⟨"/api/orders", 0⟩]).1 :=
  ⟨by simp, by decide,
    expired_entry_never_replayed 1441 (fun _ => true) [⟨"/api/orders", 0⟩]
      ⟨"/api/orders", 0⟩ (by simp) (by decide)⟩

/-- C3: a same-origin POST failing at the network layer appends exactly one
queue entry (an HTTP response, error or not, appends none); replay
processes entries in FIFO enqueue order; and a fresh entry is removed only
on a confirmed successful replay — a failed replay leaves it queued. -/
theorem offline_post_queue_fifo :
    ∀ (req : PostRequest) (now : Nat) (q : List QueueEntry) (net : QueueEntry → Bool),
      (postRouteMatches req = true →
        (networkOnlyPost req .networkFailure now q).2 = q ++ [⟨req.url, now⟩])
      ∧ (∀ s : Nat, (networkOnlyPost req (.reply s) now q).2 = q)
      ∧ (replayQueue now net q).1.Sublist q
      ∧ (∀ e ∈ q, entryExpired now e = false → e ∉ (replayQueue now net q).2 →
          e ∈ (replayQueue now net q).1 ∧ net e = true) := by
  intro req now q net
  exact ⟨fun h => by simp [networkOnlyPost, h], fun s => rfl, replay_sublist now net q,
    fun e he hf hr => replay_removed_only_on_success now net q e he hf hr⟩

/-- Witness: a failed same-origin POST to `/api/orders` at minute 7 turns
the empty queue into the one-entry queue. -/
theorem offline_post_queue_fifo_witness :
    postRouteMatches ⟨"/api/orders", true, "POST"⟩ = true
    ∧ (networkOnlyPost ⟨"/api/orders", true, "POST"⟩ .networkFailure 7 []).2 =
        [⟨"/api/orders", 7⟩] :=
  ⟨by decide,
    (offline_post_queue_fifo ⟨"/api/orders", true, "POST"⟩ 7 [] (fun _ => true)).1 (by decide)⟩

end ServiceWorker

namespace ServiceWorker

/-- A capped write is found again under its URL whenever the cap admits at
least one entry. -/
theorem putWithCap_lookup (cap : Nat) (url body : String) (c : CacheStore)
    (hcap : 0 < cap) : cacheLookup url (putWithCap cap url body c) = some body := by
  cases cap with
  | zero => exact absurd hcap (by simp)
  | succ n =>
      simp only [putWithCap, List.take_succ_cons, cacheLookup]
      rw [List.find?_cons_of_pos _ (by simp)]

/-- A capped write never leaves the namespace above its entry cap. -/
theorem putWithCap_length (cap : Nat) (url body : String) (c : CacheStore) :
    (putWithCap cap url body c).length ≤ cap := by
  simp [putWithCap]

/-- Counterexample to C6 as stated: with the network down, a navigation
whose URL sits in the pages namespace is answered from that cache, not by
the Fallback Handler. -/
theorem network_first_failure_serves_pages_cache :
    (networkFirstNavigate "/a" .downOrTimeout [("/a", "old")]).1 = .fromCache "old"
    ∧ NavResponse.fromCache "old" ≠ NavResponse.toFallback := by
  refine ⟨?_, by simp⟩
  simp [networkFirstNavigate, cacheLookup, List.find?]

/-- C6 (amended): a navigation answered by the network within the timeout
returns the live response; a cacheable (status 0/200) response is written
into the pages namespace, which stays within its 20-entry cap, while a
non-cacheable one leaves the namespace untouched; on network failure or
timeout the navigation is served from the pages-cache entry when one
exists and falls through to the Fallback Handler only when it does not. -/
theorem network_first_navigation :
    ∀ (url body : String) (s : Nat) (pages : CacheStore),
      (networkFirstNavigate url (.reply s body) pages).1 = .fromNetwork s body
      ∧ (responsePersisted pagesRoute s = true →
          cacheLookup url (networkFirstNavigate url (.reply s body) pages).2 = some body)
      ∧ (responsePersisted pagesRoute s = true →
          (networkFirstNavigate url (.reply s body) pages).2.length ≤ 20)
      ∧ (responsePersisted pagesRoute s = false →
          (networkFirstNavigate url (.reply s body) pages).2 = pages)
      ∧ (∀ bc, cacheLookup url pages = some bc →
          (networkFirstNavigate url .downOrTimeout pages).1 = .fromCache bc)
      ∧ (cacheLookup url pages = none →
          (networkFirstNavigate url .downOrTimeout pages).1 = .toFallback) := by
  intro url body s pages
  refine ⟨rfl, fun h => ?_, fun h => ?_, fun h => ?_, fun bc h => ?_, fun h => ?_⟩
  · simp [networkFirstNavigate, h, putWithCap_lookup 20 url body pages (by norm_num)]
  · simp [networkFirstNavigate, h, putWithCap_length]
  · simp [networkFirstNavigate, h]
  · simp [networkFirstNavigate, h]
  · simp [networkFirstNavigate, h]

/-- Witness: a 200 navigation response replaces the stale pages entry and
is returned live. -/
theorem network_first_navigation_witness :
    responsePersisted pagesRoute 200 = true
    ∧ (networkFirstNavigate "/home" (.reply 200 "fresh") [("/home", "stale")]).1 =
        .fromNetwork 200 "fresh"
    ∧ cacheLookup "/home" (networkFirstNavigate "/home" (.reply 200 "fresh")
        [("/home", "stale")]).2 = some "fresh" :=
  ⟨by decide, (network_first_navigation "/home" "fresh" 200 [("/home", "stale")]).1,
    (network_first_navigation "/home" "fresh" 200 [("/home", "stale")]).2.1 (by decide)⟩

end ServiceWorker

namespace Foreground

/-- Every event other than a controller-change notification leaves the
`refreshing` guard untouched. -/
theorem fgStep_preserves_refreshing (s : FgState) (ev : FgEvent)
    (h : ev ≠ FgEvent.controllerChange) : (fgStep s ev).refreshing = s.refreshing := by
  cases ev with
  | startupWaiting p => cases p <;> rfl
  | workerInstalled p => cases p <;> rfl
  | newVersionMessage => rfl
  | userConfirm => by_cases hw : s.waitingWorker <;> simp [fgStep, hw]
  | controllerChange => exact absurd rfl h

/-- A run without controller-change notifications leaves the `refreshing`
guard untouched. -/
theorem fgRun_preserves_refreshing :
    ∀ (evs : List FgEvent) (s : FgState), FgEvent.controllerChange ∉ evs →
      (fgRun s evs).refreshing = s.refreshing := by
  intro evs
  induction evs with
  | nil => intro s _; rfl
  | cons ev rest ih =>
      intro s h
      have h1 : ev ≠ FgEvent.controllerChange := fun he => h (by simp [he])
      have h2 : FgEvent.controllerChange ∉ rest := fun hr => h (List.mem_cons_of_mem _ hr)
      calc (fgRun (fgStep s ev) rest).refreshing
          = (fgStep s ev).refreshing := ih _ h2
        _ = s.refreshing := fgStep_preserves_refreshing s ev h1

/-- With the guard already set, a controller-change notification is a
no-op. -/
theorem fgStep_cc_guarded (s : FgState) (h : s.refreshing = true) :
    fgStep s FgEvent.controllerChange = s := by
  simp [fgStep, h]

/-- With the guard already set, any number of controller-change
notifications are no-ops. -/
theorem fgRun_cc_guarded :
    ∀ (m : Nat) (s : FgState), s.refreshing = true →
      fgRun s (List.replicate m FgEvent.controllerChange) = s := by
  intro m
  induction m with
  | zero => intro s _; rfl
  | succ n ih =>
      intro s h
      show fgRun (fgStep s FgEvent.controllerChange) (List.replicate n FgEvent.controllerChange) = s
      rw [fgStep_cc_guarded s h]
      exact ih s h

/-- With the guard clear, a burst of controller-change notifications
collapses to the first one. -/
theorem fgRun_cc_collapses (s : FgState) (h : s.refreshing = false) (n : Nat) :
    fgRun s (List.replicate (n + 1) FgEvent.controllerChange) =
      fgStep s FgEvent.controllerChange := by
  show fgRun (fgStep s FgEvent.controllerChange) (List.replicate n FgEvent.controllerChange) = _
  exact fgRun_cc_guarded n _ (by simp [fgStep, h])

/-- C4: starting from any event history without a controller-change
notification (covering the update-available transition and the
skip-waiting confirmation), delivering the hand-off signal one or more
times performs exactly one page reload — the second and later deliveries
are no-ops because of the `refreshing` guard. -/
theorem single_reload_on_controller_change :
    ∀ (pre : List FgEvent) (n : Nat),
      FgEvent.controllerChange ∉ pre → 1 ≤ n →
      (fgRun (fgRun initialFgState pre) (List.replicate n FgEvent.controllerChange)).reloadCount
          = (fgRun initialFgState pre).reloadCount + 1
      ∧ fgRun (fgRun initialFgState pre) (List.replicate n FgEvent.controllerChange)
          = fgStep (fgRun initialFgState pre) FgEvent.controllerChange := by
  intro pre n hpre hn
  have href : (fgRun initialFgState pre).refreshing = false :=
    fgRun_preserves_refreshing pre initialFgState hpre
  obtain ⟨m, rfl⟩ : ∃ m, n = m + 1 := ⟨n - 1, by omega⟩
  have heq := fgRun_cc_collapses (fgRun initialFgState pre) href m
  refine ⟨?_, heq⟩
  rw [heq]
  simp [fgStep, href]

/-- Witness: after the startup-waiting transition and the user's
confirmation, two hand-off deliveries yield exactly one reload. -/
theorem single_reload_on_controller_change_witness :
    FgEvent.controllerChange ∉ [FgEvent.startupWaiting true, FgEvent.userConfirm]
    ∧ 1 ≤ 2
    ∧ (fgRun (fgRun initialFgState [FgEvent.startupWaiting true, FgEvent.userConfirm])
          (List.replicate 2 FgEvent.controllerChange)).reloadCount
        = (fgRun initialFgState [FgEvent.startupWaiting true, FgEvent.userConfirm]).reloadCount
            + 1 :=
  ⟨by decide, by decide,
    (single_reload_on_controller_change [FgEvent.startupWaiting true, FgEvent.userConfirm] 2
      (by decide) (by decide)).1⟩

end Foreground

namespace Foreground

/-- Counterexample to C7 as stated: when update-available was reached via
the `NEW_VERSION` message alone, no waiting-worker reference is held, so
the user's confirmation posts no skip-waiting instruction (the optional
chaining in `updatePWA` short-circuits). -/
theorem new_version_confirm_sends_no_skip_waiting :
    (fgStep initialFgState FgEvent.newVersionMessage).updateAvailable = true
    ∧ (fgStep (fgStep initialFgState FgEvent.newVersionMessage)
        FgEvent.userConfirm).skipWaitingSent = 0 := by
  decide

/-- C7 (amended): after either waiting-worker path into update-available
(a waiting worker at startup, or an installed worker with an existing
controller), the user's confirmation posts exactly one skip-waiting
instruction to the waiting worker and clears the update-available flag;
the `NEW_VERSION` path records no waiting worker, so confirmation there
only clears the flag. -/
theorem confirm_after_waiting_worker_paths :
    ∀ (s : FgState) (ev : FgEvent),
      (ev = FgEvent.startupWaiting true ∨ ev = FgEvent.workerInstalled true) →
      (fgStep s ev).updateAvailable = true
      ∧ (fgStep (fgStep s ev) FgEvent.userConfirm).skipWaitingSent
          = (fgStep s ev).skipWaitingSent + 1
      ∧ (fgStep (fgStep s ev) FgEvent.userConfirm).updateAvailable = false := by
  intro s ev h
  rcases h with rfl | rfl <;> simp [fgStep]

/-- Witness: the startup-waiting path followed by confirmation posts one
skip-waiting instruction. -/
theorem confirm_after_waiting_worker_paths_witness :
    (fgStep (fgStep initialFgState (FgEvent.startupWaiting true))
        FgEvent.userConfirm).skipWaitingSent
      = (fgStep initialFgState (FgEvent.startupWaiting true)).skipWaitingSent + 1 :=
  (confirm_after_waiting_worker_paths initialFgState (FgEvent.startupWaiting true)
    (Or.inl rfl)).2.1

/-- Counterexample to C8 as stated: a `NEW_VERSION` message also produces
the update-available transition, though it is neither the startup-waiting
path nor the installed-with-controller path. -/
theorem new_version_message_triggers_update_available :
    initialFgState.updateAvailable = false
    ∧ (fgStep initialFgState FgEvent.newVersionMessage).updateAvailable = true
    ∧ FgEvent.newVersionMessage ≠ FgEvent.startupWaiting true
    ∧ FgEvent.newVersionMessage ≠ FgEvent.workerInstalled true
    ∧ FgEvent.newVersionMessage ≠ FgEvent.workerInstalled false := by
  refine ⟨rfl, rfl, by simp, by simp, by simp⟩

/-- C8 (amended): from a state without a pending update, the controller
transitions to update-available exactly when a waiting worker is present
at startup, a newly installed worker is detected while a controller is
active, or a `NEW_VERSION` message arrives; a first install (installed
worker with no active controller) produces no transition. -/
theorem update_available_transition_characterization :
    ∀ (s : FgState) (ev : FgEvent), s.updateAvailable = false →
      ((fgStep s ev).updateAvailable = true ↔
        ev = FgEvent.startupWaiting true ∨ ev = FgEvent.workerInstalled true
          ∨ ev = FgEvent.newVersionMessage) := by
  intro s ev h
  cases ev with
  | startupWaiting p => cases p <;> simp [fgStep, h]
  | workerInstalled p => cases p <;> simp [fgStep, h]
  | newVersionMessage => simp [fgStep]
  | userConfirm => by_cases hw : s.waitingWorker <;> simp [fgStep, hw]
  | controllerChange => by_cases hr : s.refreshing <;> simp [fgStep, hr, h]

/-- Witness: the `NEW_VERSION` message produces the transition from the
initial state. -/
theorem update_available_transition_characterization_witness :
    (fgStep initialFgState FgEvent.newVersionMessage).updateAvailable = true :=
  (update_available_transition_characterization initialFgState FgEvent.newVersionMessage
    rfl).mpr (Or.inr (Or.inr rfl))

/-- C9: a prompt invocation reports exactly one of accepted/dismissed — the
resolved choice, or dismissed when prompting throws — and in every case the
stored eligibility event is discarded and the prompt hidden, making the
prompt single-use. -/
theorem install_prompt_single_use :
    ∀ (s : InstallState) (b : PromptBehavior),
      ((installFlow s b).1 = InstallOutcome.accepted
        ∨ (installFlow s b).1 = InstallOutcome.dismissed)
      ∧ (b = PromptBehavior.throws → (installFlow s b).1 = InstallOutcome.dismissed)
      ∧ (∀ c, b = PromptBehavior.resolves c → (installFlow s b).1 = c)
      ∧ (installFlow s b).2.deferredPrompt = false
      ∧ (installFlow s b).2.showInstallPrompt = false := by
  intro s b
  cases b with
  | resolves c =>
      cases c <;> simp [installFlow, handleInstall, handleInstallChoice]
  | throws => simp [installFlow, handleInstall, handleInstallChoice]

/-- Witness: a throwing prompt reports dismissed and discards the stored
event. -/
theorem install_prompt_single_use_witness :
    (installFlow ⟨true, true⟩ PromptBehavior.throws).1 = InstallOutcome.dismissed
    ∧ (installFlow ⟨true, true⟩ PromptBehavior.throws).2.deferredPrompt = false :=
  ⟨(install_prompt_single_use ⟨true, true⟩ PromptBehavior.throws).2.1 rfl,
    (install_prompt_single_use ⟨true, true⟩ PromptBehavior.throws).2.2.2.1⟩

end Foreground
